import Mathlib

/-
Verification development for the INTELLICAB tracking-and-event pipeline.

Shallow embedding of:
  - backend/cloud_server/direction_detector.py  (DirectionDetector)
  - backend/cloud_server/cloud_detection_server.py (CloudDetectionServer:
    session lifecycle, boundary auto-scaling, length-prefixed frame receive)
  - backend/pi transport senders (struct.pack("Q") length prefixes)
  - CentroidTracker: the file centroid_tracker.py is imported by the server
    but is not part of the repository snapshot; it is modelled from the
    specification (section 4.3) where a claim needs it.

Python dictionaries keyed by object id are embedded as functions
`Nat -> Option _`; dict iteration over the per-frame object map is embedded
as iteration over an association list `List (Nat × ObjData)` in insertion
order.  Machine integers are embedded as `Int`/`Nat`; Python `int(x)` on a
quotient of nonnegative ints is truncation toward zero, written `Int.tdiv`.
-/

namespace IntelliCab

/-- Side of the boundary as returned by `DirectionDetector.get_side`
(`'IN'` / `'OUT'`; the Python `None` result is `Option.none`). -/
inductive Side where
  | IN
  | OUT
deriving DecidableEq, Repr

/-- The per-object data found in the object map handed to
`DirectionDetector.update` (the values of the tracker's objects dict:
`{'centroid': ..., 'label': ...}`). -/
structure ObjData where
  centroid : Int × Int
  label : String
deriving DecidableEq, Repr

/-- One entry of `DirectionDetector.prev_positions`:
`{'centroid': ..., 'side': ..., 'label': ...}` (direction_detector.py
lines 77-81). -/
structure PrevData where
  centroid : Int × Int
  side : Option Side
  label : String
deriving DecidableEq, Repr

/-- A crossing event as built in direction_detector.py lines 67-73.
The Python `time.time()` timestamp is embedded as a `Nat` passed in
by the caller. -/
structure Event where
  object_id : Nat
  label : String
  direction : Side
  timestamp : Nat
  centroid : Int × Int
deriving DecidableEq, Repr

/-- State of a `DirectionDetector` (direction_detector.py lines 7-10):
`boundary` (two endpoints or not yet set), `prev_positions` (dict keyed by
object id) and `crossed_objects` (a set of object ids, embedded as its
characteristic function). -/
structure DetState where
  boundary : Option ((Int × Int) × (Int × Int))
  prev_positions : Nat → Option PrevData
  crossed_objects : Nat → Bool

/-- Fresh detector as built by `DirectionDetector.__init__`
(direction_detector.py lines 7-10). -/
def initDetState : DetState :=
  ⟨none, fun _ => none, fun _ => false⟩

/-- `DirectionDetector.get_side` (direction_detector.py lines 28-44):
signed cross product `d = (px - x1) * (y2 - y1) - (py - y1) * (x2 - x1)`;
`d > 0` gives `IN`, `d < 0` gives `OUT`, `d = 0` gives `none`. -/
def get_side (boundary : Option ((Int × Int) × (Int × Int))) (point : Int × Int) :
    Option Side :=
  match boundary with
  | none => none
  | some ((x1, y1), (x2, y2)) =>
    let px := point.1
    let py := point.2
    let d := (px - x1) * (y2 - y1) - (py - y1) * (x2 - x1)
    if d > 0 then some Side.IN
    else if d < 0 then some Side.OUT
    else none

/-- The crossing-detection body of one iteration of the
`for obj_id, obj_data in objects.items()` loop
(direction_detector.py lines 60-75): if the object has a recorded previous
side, both sides are defined and they differ, and the object is not yet in
`crossed_objects`, append an event and mark the object crossed. -/
def crossingStep (obj_id : Nat) (label : String) (centroid : Int × Int)
    (prevEntry : Option PrevData) (current_side : Option Side)
    (crossed : Nat → Bool) (events : List Event) (now : Nat) :
    (Nat → Bool) × List Event :=
  match prevEntry with
  | none => (crossed, events)
  | some p =>
    match p.side, current_side with
    | some prev_side, some cur_side =>
      if prev_side ≠ cur_side then
        if crossed obj_id then (crossed, events)
        else (fun i => if i = obj_id then true else crossed i,
              events ++ [⟨obj_id, label, cur_side, now, centroid⟩])
      else (crossed, events)
    | _, _ => (crossed, events)

/-- The `for obj_id, obj_data in objects.items()` loop of
`DirectionDetector.update` (direction_detector.py lines 55-81), threading
the `prev_positions` dict, the `crossed_objects` set and the accumulated
event list through the iteration.  After the crossing check the previous
state of the object is overwritten with the current (centroid, side, label)
regardless of whether an event fired (lines 77-81). -/
def updateLoop (boundary : Option ((Int × Int) × (Int × Int))) (now : Nat) :
    List (Nat × ObjData) → (Nat → Option PrevData) → (Nat → Bool) → List Event →
    ((Nat → Option PrevData) × (Nat → Bool) × List Event)
  | [], prev, crossed, events => (prev, crossed, events)
  | (obj_id, obj_data) :: rest, prev, crossed, events =>
    let centroid := obj_data.centroid
    let label := obj_data.label
    let current_side := get_side boundary centroid
    let step :=
      crossingStep obj_id label centroid (prev obj_id) current_side crossed events now
    updateLoop boundary now rest
      (fun i => if i = obj_id then some ⟨centroid, current_side, label⟩ else prev i)
      step.1 step.2

/-- `DirectionDetector.update` (direction_detector.py lines 46-89).
Returns the emitted events and the updated detector state.  With no
boundary configured it returns `([], s)` untouched (lines 50-51); otherwise
it runs the per-object loop and then the disappeared-object cleanup
(lines 83-87): every `prev_positions` key not among the current ids is
deleted and discarded from `crossed_objects`. -/
def DirectionDetector.update (s : DetState) (objects : List (Nat × ObjData))
    (now : Nat) : List Event × DetState :=
  match s.boundary with
  | none => ([], s)
  | some _ =>
    let current_ids := objects.map Prod.fst
    let r := updateLoop s.boundary now objects s.prev_positions s.crossed_objects []
    let disappeared : Nat → Bool :=
      fun i => (r.1 i).isSome && !(current_ids.contains i)
    (r.2.2,
      { boundary := s.boundary
        prev_positions := fun i => if disappeared i then none else r.1 i
        crossed_objects := fun i => if disappeared i then false else r.2.1 i })

/-- Run `DirectionDetector.update` over a sequence of per-frame object
maps, collecting all emitted events; the frame index serves as the
timestamp. -/
def runDetectorSeq (s : DetState) :
    List (List (Nat × ObjData)) → Nat → List Event
  | [], _ => []
  | f :: fs, t =>
    let r := DirectionDetector.update s f t
    r.1 ++ runDetectorSeq r.2 fs (t + 1)

/-- One detection handed to the tracker: a bounding box and a label
(the server passes `boxes` and `labels` extracted from the model,
cloud_detection_server.py lines 289-316). -/
structure Detection where
  x1 : Int
  y1 : Int
  x2 : Int
  y2 : Int
  label : String
deriving DecidableEq, Repr

/-- Modelled from the spec: state of a `CentroidTracker` (section 4.3).
The file `centroid_tracker.py` is imported by the server
(`from centroid_tracker import CentroidTracker`) but is missing from the
repository snapshot.  Holds the tracked objects as (id, centroid, label)
in registration order, the per-id disappeared-counts, the monotonic next
object id, and the `maxDisappeared` threshold. -/
structure TrackerState where
  nextObjectID : Nat
  objects : List (Nat × (Int × Int) × String)
  disappeared : List (Nat × Nat)
  maxDisappeared : Nat
deriving DecidableEq, Repr

/-- Modelled from the spec: registering a detection as a newly tracked
object (section 4.3 steps 2 and 6): fresh id, disappeared-count 0. -/
def register (s : TrackerState) (c : Int × Int) (lab : String) : TrackerState :=
  ⟨s.nextObjectID + 1,
   s.objects ++ [(s.nextObjectID, c, lab)],
   s.disappeared ++ [(s.nextObjectID, 0)],
   s.maxDisappeared⟩

/-- Squared Euclidean distance between two centroids; comparing squared
distances orders pairs exactly as the Euclidean distances of
section 4.3 step 3 do. -/
def dist2 (a b : Int × Int) : Int :=
  (a.1 - b.1) * (a.1 - b.1) + (a.2 - b.2) * (a.2 - b.2)

/-- Pick the pair with the globally smallest remaining distance
(section 4.3 step 4); earlier pairs win ties. -/
def pickMin (pairs : List (Nat × Nat × Int)) : Option (Nat × Nat × Int) :=
  pairs.foldl
    (fun acc p =>
      match acc with
      | none => some p
      | some q => if p.2.2 < q.2.2 then some p else some q)
    none

/-- Modelled from the spec: greedy assignment in ascending distance order
(section 4.3 step 4) — repeatedly pick the globally smallest remaining
(object, detection, distance) triple, bind that pair, and drop every
remaining triple sharing its object or its detection.  The fuel argument
bounds the iteration count; `pairs.length` always suffices since each step
removes at least the chosen triple. -/
def greedyAssign : Nat → List (Nat × Nat × Int) → List (Nat × Nat)
  | 0, _ => []
  | fuel + 1, pairs =>
    match pickMin pairs with
    | none => []
    | some (oid, j, _) =>
      (oid, j) ::
        greedyAssign fuel
          (pairs.filter (fun p => p.1 ≠ oid && p.2.1 ≠ j))

/-- Modelled from the spec: the centroid of a detection's bounding box,
`((x1+x2)/2, (y1+y2)/2)` (section 4.3 step 1), with integer truncation. -/
def centroidOf (d : Detection) : Int × Int :=
  (Int.tdiv (d.x1 + d.x2) 2, Int.tdiv (d.y1 + d.y2) 2)

/-- Modelled from the spec: `CentroidTracker.update` (section 4.3).
Computes detection centroids; registers everything when no objects exist;
otherwise greedily matches existing objects to detections over the full
pairwise distance matrix, updates matched objects' centroid/label and
resets their disappeared-count, increments the count of unmatched objects
and deregisters those whose count exceeds `maxDisappeared`, and registers
unmatched detections as new objects.  Returns the tracked object map
consumed by the server (id to centroid/label) and the new state. -/
def CentroidTracker.update (s : TrackerState) (dets : List Detection) :
    List (Nat × ObjData) × TrackerState :=
  let inputs := dets.map (fun d => (centroidOf d, d.label))
  if s.objects.isEmpty then
    let s2 := inputs.foldl (fun t cl => register t cl.1 cl.2) s
    (s2.objects.map (fun o => (o.1, ⟨o.2.1, o.2.2⟩)), s2)
  else
    let pairs :=
      s.objects.foldr
        (fun o acc =>
          (inputs.enum.map (fun jc => (o.1, jc.1, dist2 o.2.1 jc.2.1))) ++ acc)
        []
    let assigned := greedyAssign pairs.length pairs
    let matchedObjIds := assigned.map Prod.fst
    let matchedDetIdxs := assigned.map (fun m => m.2)
    let updObjects :=
      s.objects.map (fun o =>
        match (assigned.find? (fun m => m.1 = o.1)).bind
            (fun m => inputs.get? m.2) with
        | some cl => (o.1, cl.1, cl.2)
        | none => o)
    let updDisappeared :=
      s.disappeared.map (fun dc =>
        if matchedObjIds.contains dc.1 then (dc.1, 0) else (dc.1, dc.2 + 1))
    let toRemove :=
      (updDisappeared.filter (fun dc => dc.2 > s.maxDisappeared)).map Prod.fst
    let s1 : TrackerState :=
      ⟨s.nextObjectID,
       updObjects.filter (fun o => !(toRemove.contains o.1)),
       updDisappeared.filter (fun dc => !(toRemove.contains dc.1)),
       s.maxDisappeared⟩
    let s2 :=
      inputs.enum.foldl
        (fun t jc =>
          if matchedDetIdxs.contains jc.1 then t
          else register t jc.2.1 jc.2.2)
        s1
    (s2.objects.map (fun o => (o.1, ⟨o.2.1, o.2.2⟩)), s2)

/-- Fresh tracker as constructed per session by the spec (section 4.2);
the server constructs it with `maxDisappeared` and next id 0. -/
def emptyTracker (m : Nat) : TrackerState :=
  ⟨0, [], [], m⟩

/-- Run the tracker over a given number of frames that each contain zero
detections. -/
def runEmptyFrames : Nat → TrackerState → TrackerState
  | 0, s => s
  | n + 1, s => runEmptyFrames n (CentroidTracker.update s []).2

/-- The mutable state of a `CloudDetectionServer` relevant to the tracking
pipeline.  `tracker` and `direction_detector` are constructed once in
`__init__` (cloud_detection_server.py lines 58-61); `boundary_original`,
`calibration_width`, `calibration_height` and `boundary_scaled` are the
attributes written by `process_frames` and `process_single_frame`
(lines 146-179 and 249-278). -/
structure ServerState where
  tracker : TrackerState
  direction_detector : DetState
  boundary_original : Option (Int × Int × Int × Int)
  calibration_width : Int
  calibration_height : Int
  boundary_scaled : Bool

/-- Server construction (`CloudDetectionServer.__init__`, lines 58-61):
`CentroidTracker(maxDisappeared=30)` and `DirectionDetector()` are created
exactly once here, NOT per connection; no boundary attributes exist yet
(the calibration defaults 640 and 480 are only read once `process_frames`
stores them, so their initial values are immaterial). -/
def serverInit : ServerState :=
  ⟨emptyTracker 30, initDetState, none, 640, 480, false⟩

/-- The first-frame boundary auto-scaling step of `process_single_frame`
(cloud_detection_server.py lines 249-278): when a boundary was loaded and
not yet scaled, compute `scale_x = frame_width / calibration_width` and
`scale_y = frame_height / calibration_height`, apply them per axis with
Python `int()` truncation (exact rational arithmetic embedded as
`Int.tdiv (coord * frame_dim) calib_dim`; the float rounding of the
source is abstracted as exact), clamp each x into `[0, frame_width-1]`
and each y into `[0, frame_height-1]`, install the scaled boundary into
the direction detector via `set_boundary`, and set `boundary_scaled`. -/
def autoScaleBoundary (s : ServerState) (frame_width frame_height : Int) :
    ServerState :=
  match s.boundary_original with
  | none => s
  | some (bx1, by1, bx2, by2) =>
    if s.boundary_scaled then s
    else
      let scaled_x1 := Int.tdiv (bx1 * frame_width) s.calibration_width
      let scaled_y1 := Int.tdiv (by1 * frame_height) s.calibration_height
      let scaled_x2 := Int.tdiv (bx2 * frame_width) s.calibration_width
      let scaled_y2 := Int.tdiv (by2 * frame_height) s.calibration_height
      let cx1 := max 0 (min scaled_x1 (frame_width - 1))
      let cx2 := max 0 (min scaled_x2 (frame_width - 1))
      let cy1 := max 0 (min scaled_y1 (frame_height - 1))
      let cy2 := max 0 (min scaled_y2 (frame_height - 1))
      { s with
        direction_detector :=
          { s.direction_detector with boundary := some ((cx1, cy1), (cx2, cy2)) }
        boundary_scaled := true }

/-- The tracking part of `process_single_frame`
(cloud_detection_server.py lines 246-331): auto-scale the boundary on the
first frame, run the tracker on the extracted detections, run the crossing
detector on the resulting object map, and return the emitted events.  The
model inference, drawing and Firebase publishing are external. -/
def process_single_frame (s : ServerState) (frame_width frame_height : Int)
    (dets : List Detection) (now : Nat) : ServerState × List Event :=
  let s1 := autoScaleBoundary s frame_width frame_height
  let tr := CentroidTracker.update s1.tracker dets
  let dd := DirectionDetector.update s1.direction_detector tr.1 now
  ({ s1 with tracker := tr.2, direction_detector := dd.2 }, dd.1)

/-- One inbound connection, as the pipeline sees it: the device's boundary
configuration fetched from Firebase (endpoints plus calibration
resolution), and the decoded frames, each with its resolution and the
detections the model extracts from it. -/
structure SessionInput where
  boundary : Option (Int × Int × Int × Int)
  calib_w : Int
  calib_h : Int
  frames : List (Int × Int × List Detection)

/-- The per-frame loop of `process_frames`
(cloud_detection_server.py lines 190-233), emitting each frame's events. -/
def processFramesLoop (s : ServerState) :
    List (Int × Int × List Detection) → Nat → ServerState × List (List Event)
  | [], _ => (s, [])
  | f :: rest, t =>
    let r := process_single_frame s f.1 f.2.1 f.2.2 t
    let r2 := processFramesLoop r.1 rest (t + 1)
    (r2.1, r.2 :: r2.2)

/-- `process_frames` for one connection
(cloud_detection_server.py lines 131-243): store the device's boundary
configuration on the server object when one exists (lines 146-173, which
set `boundary_original`, the calibration resolution and reset
`boundary_scaled` to False), then process the session's frames.  The
tracker and direction detector are the SERVER's — nothing here constructs
fresh ones. -/
def process_frames (s : ServerState) (sess : SessionInput) :
    ServerState × List (List Event) :=
  let s1 :=
    match sess.boundary with
    | some b =>
      { s with
        boundary_original := some b
        calibration_width := sess.calib_w
        calibration_height := sess.calib_h
        boundary_scaled := false }
    | none => s
  processFramesLoop s1 sess.frames 0

/-- A detection whose bbox centroid is (50, 90): on the IN side of the
boundary (0,100)-(100,100). -/
def detInSide : Detection := ⟨40, 80, 60, 100, "item"⟩

/-- A detection whose bbox centroid is (50, 110): on the OUT side of the
boundary (0,100)-(100,100). -/
def detOutSide : Detection := ⟨40, 100, 60, 120, "item"⟩

/-- Session 1 of the reconnection scenario: boundary (0,100)-(100,100)
calibrated at 640x480, one 640x480 frame with one detection on the IN
side. -/
def sessIn : SessionInput :=
  ⟨some (0, 100, 100, 100), 640, 480, [(640, 480, [detInSide])]⟩

/-- Session 2 of the reconnection scenario: the same device reconnects
and its first (and only) frame has one detection on the OUT side. -/
def sessOut : SessionInput :=
  ⟨some (0, 100, 100, 100), 640, 480, [(640, 480, [detOutSide])]⟩

/-- Host byte order.  Python `struct` with format `"Q"` and no byte-order
character uses the HOST's native order and size, so the wire encoding of
the 8-byte length prefix is a function of both the value and the host. -/
inductive Endian where
  | little
  | big
deriving DecidableEq, Repr

/-- The `k` low-order base-256 digits of `n`, least significant first. -/
def toBytesLE : Nat → Nat → List Nat
  | 0, _ => []
  | k + 1, n => n % 256 :: toBytesLE k (n / 256)

/-- Value of a little-endian byte list. -/
def fromBytesLE : List Nat → Nat
  | [] => 0
  | b :: bs => b + 256 * fromBytesLE bs

/-- `struct.pack("Q", n)` (pi_camera_client.py line 132,
smart_cabinet_pi_backend.py line 274): 8 bytes of `n` in the HOST's
native byte order. -/
def structPackQ (host : Endian) (n : Nat) : List Nat :=
  match host with
  | Endian.little => toBytesLE 8 n
  | Endian.big => (toBytesLE 8 n).reverse

/-- `struct.unpack("Q", bs)[0]` (cloud_detection_server.py lines 137
and 201): the value of 8 bytes read in the HOST's native byte order. -/
def structUnpackQ (host : Endian) (bs : List Nat) : Nat :=
  match host with
  | Endian.little => fromBytesLE bs
  | Endian.big => fromBytesLE bs.reverse

/-- A length-prefixed record as the senders build it:
`struct.pack("Q", len(data)) + data` (pi_camera_client.py lines 132-136). -/
def encodeRecord (host : Endian) (payload : List Nat) : List Nat :=
  structPackQ host payload.length ++ payload

/-- A model of successive `conn.recv` calls: the chunk list holds the byte
groups the socket will deliver, in order; once it is exhausted the peer
has closed and every further recv returns the empty byte string.
`recvOnce n` is one `conn.recv(n)` call: it returns at most `n` bytes from
the front group, leaving any remainder buffered as the new front group. -/
def recvOnce (n : Nat) : List (List Nat) → List Nat × List (List Nat)
  | [] => ([], [])
  | c :: rest =>
    if n < c.length then (c.take n, c.drop n :: rest) else (c, rest)

/-- The device-id handshake receive (cloud_detection_server.py
lines 136-144): `struct.unpack("Q", conn.recv(8))` — a SINGLE recv call
with no retry loop.  If it returns anything other than exactly 8 bytes,
`struct.unpack` raises `struct.error`, the except branch closes the
connection and the session ends (`none`).  Otherwise one more single
recv call fetches the device-id bytes. -/
def recvHandshake (host : Endian) (chunks : List (List Nat)) :
    Option (List Nat × List (List Nat)) :=
  let r1 := recvOnce 8 chunks
  if r1.1.length = 8 then
    let device_id_size := structUnpackQ host r1.1
    let r2 := recvOnce device_id_size r1.2
    some (r2.1, r2.2)
  else none

/-- The length-prefix receive loop (cloud_detection_server.py
lines 193-197): `while len(data) < payload_size`, one recv per iteration,
raising ConnectionError (`none`) when a recv returns the empty byte
string (explicit `if not packet` check, or the chunk list exhausted). -/
def recvSizeLoop (payload_size : Nat) (chunks : List (List Nat))
    (data : List Nat) : Option (List Nat × List (List Nat)) :=
  if payload_size ≤ data.length then some (data, chunks)
  else
    match chunks with
    | [] => none
    | c :: rest =>
      if c.isEmpty then none
      else recvSizeLoop payload_size rest (data ++ c)

/-- The payload receive loop (cloud_detection_server.py lines 204-205):
`while len(data) < msg_size: data += conn.recv(4096)` — there is NO
empty-packet check, so after peer close every iteration appends the empty
byte string and makes no progress; the loop has no exit path other than
satisfying the length.  It is therefore embedded with an iteration budget
`fuel`; `none` means the budget ran out with the length still
unsatisfied (in the source: the loop is still running). -/
def recvPayloadLoop (msg_size fuel : Nat) (chunks : List (List Nat))
    (data : List Nat) : Option (List Nat × List (List Nat)) :=
  if msg_size ≤ data.length then some (data, chunks)
  else
    match fuel, chunks with
    | 0, _ => none
    | fuel' + 1, [] => recvPayloadLoop msg_size fuel' [] data
    | fuel' + 1, c :: rest => recvPayloadLoop msg_size fuel' rest (data ++ c)

/-- How a session's frame loop ends. -/
inductive SessionEnd where
  | connectionLost
  | decodeErrorClosed
  | stuckInPayloadLoop
  | outOfFuel
deriving DecidableEq, Repr

/-- The frame-record receive-and-process loop of `process_frames`
(cloud_detection_server.py lines 190-243): drain the 8-byte length prefix
through the checked size loop, `struct.unpack("Q")` it in host byte order,
drain that many payload bytes through the unchecked payload loop, decode
the payload (`cv2.imdecode` is external; the `decode` parameter models it,
returning an abstract frame handle), process the frame, and loop.
`connectionLost` is the ConnectionError raised at line 196 reaching the
outer handler, which closes the connection; `decodeErrorClosed` is the
re-raise at line 230 reaching the same handler — the session ends and the
connection is closed; `stuckInPayloadLoop` marks the payload loop failing
to finish within more iterations than there are chunks left, which in the
source is an infinite loop.  `fuel` bounds the number of records
processed; the returned list holds the successfully processed frames in
order. -/
def frameLoop (host : Endian) (decode : List Nat → Option Nat) :
    Nat → List (List Nat) → List Nat → List Nat × SessionEnd
  | 0, _, _ => ([], SessionEnd.outOfFuel)
  | fuel + 1, chunks, data =>
    match recvSizeLoop 8 chunks data with
    | none => ([], SessionEnd.connectionLost)
    | some (d1, ch1) =>
      let msg_size := structUnpackQ host (d1.take 8)
      let d2 := d1.drop 8
      match recvPayloadLoop msg_size (ch1.length + 1) ch1 d2 with
      | none => ([], SessionEnd.stuckInPayloadLoop)
      | some (d3, ch2) =>
        let frame_data := d3.take msg_size
        let d4 := d3.drop msg_size
        match decode frame_data with
        | none => ([], SessionEnd.decodeErrorClosed)
        | some f =>
          let r := frameLoop host decode fuel ch2 d4
          (f :: r.1, r.2)

/-- A concrete stand-in for `cv2.imdecode`: payload [7] decodes to frame
handle 1, payload [9] decodes to frame handle 3, everything else fails to
decode. -/
def decodeC3 (b : List Nat) : Option Nat :=
  if b = [7] then some 1 else if b = [9] then some 3 else none

/-- A delivered byte stream with three records: payloads [7] (decodable),
[0] (not decodable) and [9] (decodable). -/
def streamC3 : List (List Nat) :=
  [encodeRecord Endian.little [7] ++ encodeRecord Endian.little [0] ++
    encodeRecord Endian.little [9]]

/-- Server state just after a session loaded the calibration boundary
(100,100)-(500,100) recorded at resolution 640x480, before the first live
frame arrives. -/
def calibSessC6 : ServerState :=
  ⟨emptyTracker 30, initDetState, some (100, 100, 500, 100), 640, 480, false⟩

/-- Side classification exactly as the spec words it (section 4.4): compute
`d = (Px-x1)*(y2-y1) - (Py-y1)*(x2-x1)`; `d>0 → IN`, `d<0 → OUT`,
`d==0 → NO_SIDE`. -/
def specSideClassification (x1 y1 x2 y2 px py : Int) : Option Side :=
  let d := (px - x1) * (y2 - y1) - (py - y1) * (x2 - x1)
  if d > 0 then some Side.IN
  else if d < 0 then some Side.OUT
  else none

/-- Detector state with the boundary (0,0)-(100,0) configured and no
per-object memory, as after `set_boundary` on a fresh detector. -/
def detC1 : DetState :=
  ⟨some ((0, 0), (100, 0)), fun _ => none, fun _ => false⟩

/-- Five frames tracking the single object id 0 whose centroid side
sequence against boundary (0,0)-(100,0) is IN, IN, OUT, OUT, IN. -/
def framesC1 : List (List (Nat × ObjData)) :=
  [[(0, ⟨(50, -10), "item"⟩)],
   [(0, ⟨(50, -10), "item"⟩)],
   [(0, ⟨(50, 10), "item"⟩)],
   [(0, ⟨(50, 10), "item"⟩)],
   [(0, ⟨(50, -10), "item"⟩)]]

/-- During the per-object loop, `prev_positions` holds an entry for an id
exactly when it held one before or the id occurs among the processed
objects. -/
theorem updateLoop_prev_isSome (boundary : Option ((Int × Int) × (Int × Int)))
    (now : Nat) :
    ∀ (objects : List (Nat × ObjData)) (prev : Nat → Option PrevData)
      (crossed : Nat → Bool) (events : List Event) (i : Nat),
      ((updateLoop boundary now objects prev crossed events).1 i).isSome = true ↔
        ((prev i).isSome = true ∨ i ∈ objects.map Prod.fst) := by
  intro objects
  induction objects with
  | nil =>
    intro prev crossed events i
    simp [updateLoop]
  | cons head rest ih =>
    intro prev crossed events i
    obtain ⟨obj_id, obj_data⟩ := head
    rw [updateLoop]
    rw [ih]
    by_cases hi : i = obj_id
    · subst hi
      simp
    · simp [hi]

/-- One crossing step can only set the crossed flag of the object it
processes. -/
theorem crossingStep_crossed_mem (obj_id : Nat) (label : String)
    (centroid : Int × Int) (prevEntry : Option PrevData)
    (current_side : Option Side) (crossed : Nat → Bool) (events : List Event)
    (now : Nat) (i : Nat)
    (h : (crossingStep obj_id label centroid prevEntry current_side
            crossed events now).1 i = true) :
    crossed i = true ∨ i = obj_id := by
  rcases prevEntry with _ | p
  · exact Or.inl h
  · obtain ⟨pc, pside, plab⟩ := p
    rcases pside with _ | ps
    · exact Or.inl h
    · rcases current_side with _ | cs
      · exact Or.inl h
      · simp only [crossingStep] at h
        by_cases hne : ps ≠ cs
        · rw [if_pos hne] at h
          by_cases hcr : crossed obj_id = true
          · rw [if_pos hcr] at h
            exact Or.inl h
          · rw [if_neg (by simpa using hcr)] at h
            simp only at h
            by_cases hi : i = obj_id
            · exact Or.inr hi
            · rw [if_neg hi] at h
              exact Or.inl h
        · rw [if_neg hne] at h
          exact Or.inl h

/-- During the per-object loop, `crossed_objects` can only gain ids that
occur among the processed objects. -/
theorem updateLoop_crossed_mem (boundary : Option ((Int × Int) × (Int × Int)))
    (now : Nat) :
    ∀ (objects : List (Nat × ObjData)) (prev : Nat → Option PrevData)
      (crossed : Nat → Bool) (events : List Event) (i : Nat),
      (updateLoop boundary now objects prev crossed events).2.1 i = true →
        (crossed i = true ∨ i ∈ objects.map Prod.fst) := by
  intro objects
  induction objects with
  | nil =>
    intro prev crossed events i h
    exact Or.inl h
  | cons head rest ih =>
    intro prev crossed events i h
    obtain ⟨obj_id, obj_data⟩ := head
    rw [updateLoop] at h
    rcases ih _ _ _ i h with hc | hm
    · rcases crossingStep_crossed_mem _ _ _ _ _ _ _ _ _ hc with hc2 | hi
      · exact Or.inl hc2
      · right
        simp [hi]
    · right
      simp only [List.map_cons, List.mem_cons]
      exact Or.inr hm

end IntelliCab

namespace IntelliCab

/-- C5: `get_side` agrees everywhere with the spec's cross-product side
classification, and on boundary (0,0)-(100,0) the point (50,-10)
classifies IN while (50,10) classifies OUT. -/
theorem get_side_matches_spec_classification :
    (∀ (x1 y1 x2 y2 px py : Int),
      get_side (some ((x1, y1), (x2, y2))) (px, py) =
        specSideClassification x1 y1 x2 y2 px py)
    ∧ get_side (some ((0, 0), (100, 0))) (50, -10) = some Side.IN
    ∧ get_side (some ((0, 0), (100, 0))) (50, 10) = some Side.OUT := by
  refine ⟨fun x1 y1 x2 y2 px py => rfl, by decide, by decide⟩

/-- C1 (code evaluation at the failing input): over the side sequence
IN, IN, OUT, OUT, IN for the single tracked object 0, the code emits
exactly ONE crossing event (at the first side change, frame index 2);
the second side change (OUT back to IN) is suppressed because
`crossed_objects` is never cleared while the object stays tracked.
The claim (and spec section 8) demands exactly two events. -/
theorem crossing_sequence_emits_single_event :
    runDetectorSeq detC1 framesC1 0 =
      [⟨0, "item", Side.OUT, 2, (50, 10)⟩] := by
  decide

/-- C7: with no boundary configured, `update` returns an empty event list
and the detector state completely unchanged. -/
theorem update_without_boundary_is_noop (s : DetState)
    (objects : List (Nat × ObjData)) (now : Nat) (h : s.boundary = none) :
    DirectionDetector.update s objects now = ([], s) := by
  unfold DirectionDetector.update
  rw [h]

/-- C7 witness: concrete no-boundary state and a nonempty object map. -/
theorem update_without_boundary_is_noop_witness :
    DirectionDetector.update initDetState [(3, ⟨(7, 8), "can"⟩)] 5 =
      ([], initDetState) :=
  update_without_boundary_is_noop initDetState [(3, ⟨(7, 8), "can"⟩)] 5 rfl

/-- Value of the k low-order base-256 digits of n. -/
theorem fromBytesLE_toBytesLE (k : Nat) :
    ∀ n, fromBytesLE (toBytesLE k n) = n % 256 ^ k := by
  induction k with
  | zero => intro n; simp [toBytesLE, fromBytesLE, Nat.mod_one]
  | succ k ih =>
    intro n
    rw [toBytesLE, fromBytesLE, ih (n / 256), pow_succ', Nat.mod_mul]

/-- Packing then unpacking with the same host byte order restores any
value below 2^64. -/
theorem structUnpackQ_structPackQ (host : Endian) (n : Nat) (h : n < 2 ^ 64) :
    structUnpackQ host (structPackQ host n) = n := by
  have h64 : (256 : Nat) ^ 8 = 2 ^ 64 := by norm_num
  have h8 : fromBytesLE (toBytesLE 8 n) = n := by
    rw [fromBytesLE_toBytesLE 8 n, h64]
    exact Nat.mod_eq_of_lt h
  cases host
  · exact h8
  · simpa [structPackQ, structUnpackQ, List.reverse_reverse] using h8

/-- The packed length prefix is always 8 bytes. -/
theorem structPackQ_length (host : Endian) (n : Nat) :
    (structPackQ host n).length = 8 := by
  have hlen : ∀ k m, (toBytesLE k m).length = k := by
    intro k
    induction k with
    | zero => intro m; rfl
    | succ k ih => intro m; simp [toBytesLE, ih]
  cases host
  · exact hlen 8 n
  · simp [structPackQ, hlen 8 n]

/-- Length of an encoded record. -/
theorem encodeRecord_length (host : Endian) (p : List Nat) :
    (encodeRecord host p).length = 8 + p.length := by
  simp [encodeRecord, structPackQ_length]

/-- The first 8 bytes of an encoded record (plus any trailing stream) are
its packed length prefix. -/
theorem encodeRecord_take8 (host : Endian) (p rest : List Nat) :
    (encodeRecord host p ++ rest).take 8 = structPackQ host p.length := by
  rw [encodeRecord, List.append_assoc, ← structPackQ_length host p.length,
    List.take_left]

/-- Dropping the 8-byte prefix of an encoded record leaves its payload
followed by the rest of the stream. -/
theorem encodeRecord_drop8 (host : Endian) (p rest : List Nat) :
    (encodeRecord host p ++ rest).drop 8 = p ++ rest := by
  rw [encodeRecord, List.append_assoc, ← structPackQ_length host p.length,
    List.drop_left]

/-- The size loop returns immediately when the buffered data already
covers the requested size. -/
theorem recvSizeLoop_done (sz : Nat) (chunks : List (List Nat))
    (data : List Nat) (h : sz ≤ data.length) :
    recvSizeLoop sz chunks data = some (data, chunks) := by
  rw [recvSizeLoop.eq_def, if_pos h]

/-- The payload loop returns immediately when the buffered data already
covers the requested size, whatever the remaining fuel. -/
theorem recvPayloadLoop_done (sz fuel : Nat) (chunks : List (List Nat))
    (data : List Nat) (h : sz ≤ data.length) :
    recvPayloadLoop sz fuel chunks data = some (data, chunks) := by
  rw [recvPayloadLoop.eq_def, if_pos h]

/-- One iteration of the size loop over a single sufficient chunk. -/
theorem recvSizeLoop_single (S : List Nat) (h : 8 ≤ S.length) :
    recvSizeLoop 8 [S] [] = some (S, []) := by
  rw [recvSizeLoop.eq_def]
  rw [if_neg (by simp)]
  have hne : S.isEmpty = false := by
    cases S
    · simp at h
    · rfl
  show (if S.isEmpty = true then none
        else recvSizeLoop 8 [] ([] ++ S)) = some (S, [])
  rw [if_neg (by simp [hne]), List.nil_append]
  exact recvSizeLoop_done 8 [] S h

/-- Consuming one well-formed, decodable record from the front of the
buffered stream: the frame is processed and the loop continues on the
rest. -/
theorem frameLoop_step (host : Endian) (decode : List Nat → Option Nat)
    (fuel : Nat) (p rest : List Nat) (f : Nat)
    (hp : p.length < 2 ^ 64) (hd : decode p = some f) :
    frameLoop host decode (fuel + 1) [] (encodeRecord host p ++ rest) =
      ((f :: (frameLoop host decode fuel [] rest).1),
        (frameLoop host decode fuel [] rest).2) := by
  have hlen : 8 ≤ (encodeRecord host p ++ rest).length := by
    rw [List.length_append, encodeRecord_length]
    omega
  rw [frameLoop,
    recvSizeLoop_done 8 [] (encodeRecord host p ++ rest) hlen]
  simp only [encodeRecord_take8, encodeRecord_drop8,
    structUnpackQ_structPackQ host p.length hp, List.length_nil]
  rw [recvPayloadLoop_done p.length 1 [] (p ++ rest) (by simp)]
  simp only [List.take_left, List.drop_left, hd]

/-- Hitting an undecodable record at the front of the buffered stream
ends the session with the decode-error path. -/
theorem frameLoop_decode_failure (host : Endian)
    (decode : List Nat → Option Nat) (fuel : Nat) (p rest : List Nat)
    (hp : p.length < 2 ^ 64) (hd : decode p = none) :
    frameLoop host decode (fuel + 1) [] (encodeRecord host p ++ rest) =
      ([], SessionEnd.decodeErrorClosed) := by
  have hlen : 8 ≤ (encodeRecord host p ++ rest).length := by
    rw [List.length_append, encodeRecord_length]
    omega
  rw [frameLoop,
    recvSizeLoop_done 8 [] (encodeRecord host p ++ rest) hlen]
  simp only [encodeRecord_take8, encodeRecord_drop8,
    structUnpackQ_structPackQ host p.length hp, List.length_nil]
  rw [recvPayloadLoop_done p.length 1 [] (p ++ rest) (by simp)]
  simp only [List.take_left, List.drop_left, hd]

/-- A single chunk already holding a whole prefix behaves like buffered
data: the first size-loop pass just moves it into the buffer. -/
theorem frameLoop_single_chunk (host : Endian)
    (decode : List Nat → Option Nat) (fuel : Nat) (S : List Nat)
    (h8 : 8 ≤ S.length) :
    frameLoop host decode (fuel + 1) [S] [] =
      frameLoop host decode (fuel + 1) [] S := by
  rw [frameLoop, frameLoop, recvSizeLoop_single S h8,
    recvSizeLoop_done 8 [] S h8]

/-- C8 counterexample: the `struct` format `"Q"` carries no byte-order
character, so the encoding and decoding of the 8-byte length prefix
depend on the host's native byte order — the value 1 packs differently on
little- and big-endian hosts, and the same 8 wire bytes decode to
different values; the byte order is not fixed or pinned. -/
theorem length_prefix_byte_order_depends_on_host :
    structPackQ Endian.little 1 ≠ structPackQ Endian.big 1
    ∧ structUnpackQ Endian.little [1, 0, 0, 0, 0, 0, 0, 0] ≠
        structUnpackQ Endian.big [1, 0, 0, 0, 0, 0, 0, 0] := by
  refine ⟨by decide, by decide⟩

/-- C8 amended: the 8-byte unsigned length prefix is encoded and decoded
with `struct` format `"Q"`, i.e. in the HOST's native byte order rather
than one explicitly pinned order; sender and receiver agree (pack then
unpack restores every value below 2^64) exactly when their hosts share
the same byte order. -/
theorem length_prefix_roundtrip_same_endian (host : Endian) (n : Nat)
    (h : n < 2 ^ 64) : structUnpackQ host (structPackQ host n) = n :=
  structUnpackQ_structPackQ host n h

/-- C8 witness: both endpoints little-endian, prefix value 5. -/
theorem length_prefix_roundtrip_same_endian_witness :
    structUnpackQ Endian.little (structPackQ Endian.little 5) = 5 :=
  length_prefix_roundtrip_same_endian Endian.little 5 (by norm_num)

/-- C4 (code evaluation at the failing inputs): the handshake read is a
single `conn.recv(8)` with no retry, so a length prefix arriving split as
1 byte then 7 bytes kills the session (struct.error, `none`) instead of
being drained; the payload loop has no zero-byte check, so after the peer
closes mid-record it never terminates (for every iteration budget it is
still unsatisfied); only the frame-size loop (third conjunct) actually
retries short reads correctly, draining the same split prefix. -/
theorem short_reads_mishandled :
    recvHandshake Endian.little [[1], [0, 0, 0, 0, 0, 0, 0]] = none
    ∧ (∀ fuel, recvPayloadLoop 100 fuel [] [] = none)
    ∧ recvSizeLoop 8 [[1], [0, 0, 0, 0, 0, 0, 0]] [] =
        some ([1, 0, 0, 0, 0, 0, 0, 0], []) := by
  refine ⟨rfl, ?_, rfl⟩
  intro fuel
  induction fuel with
  | zero => rfl
  | succ k ih =>
    rw [recvPayloadLoop.eq_def]
    rw [if_neg (by simp)]
    exact ih

/-- C3 counterexample: a stream of three records whose middle payload is
undecodable.  The session terminates on the decode failure with the
connection closed — only the first frame is ever processed; the third
record, although decodable (second conjunct), is never reached, so the
session does NOT continue waiting for the next frame. -/
theorem decode_failure_closes_connection_counterexample :
    frameLoop Endian.little decodeC3 5 streamC3 [] =
      ([1], SessionEnd.decodeErrorClosed)
    ∧ decodeC3 [9] = some 3 := by
  refine ⟨rfl, rfl⟩

/-- C3 amended: when a received frame payload fails to decode, the
re-raise at cloud_detection_server.py line 230 propagates to the outer
handler and the session terminates with its connection closed: for any
stream of three well-formed records whose first payload decodes and whose
second does not, the loop processes exactly the first frame and ends with
`decodeErrorClosed`, never reaching the third record, with any iteration
budget of at least two.  (The server's accept loop then goes on to accept
new connections; the failure is per-session, not per-frame.) -/
theorem decode_failure_closes_connection (host : Endian)
    (decode : List Nat → Option Nat) (fuel : Nat) (p1 p2 p3 : List Nat)
    (f1 : Nat) (h1 : p1.length < 2 ^ 64) (h2 : p2.length < 2 ^ 64)
    (hd1 : decode p1 = some f1) (hd2 : decode p2 = none) :
    frameLoop host decode (fuel + 1 + 1)
      [encodeRecord host p1 ++ encodeRecord host p2 ++ encodeRecord host p3]
      [] = ([f1], SessionEnd.decodeErrorClosed) := by
  have h8 : 8 ≤ (encodeRecord host p1 ++ encodeRecord host p2 ++
      encodeRecord host p3).length := by
    simp [encodeRecord_length]
    omega
  rw [frameLoop_single_chunk host decode (fuel + 1) _ h8,
    List.append_assoc,
    frameLoop_step host decode (fuel + 1) p1
      (encodeRecord host p2 ++ encodeRecord host p3) f1 h1 hd1,
    frameLoop_decode_failure host decode fuel p2
      (encodeRecord host p3) h2 hd2]

/-- C3 witness: the concrete three-record stream with payloads [7]
(decodes to frame 1), [0] (undecodable) and [9]. -/
theorem decode_failure_closes_connection_witness :
    frameLoop Endian.little decodeC3 (0 + 1 + 1)
      [encodeRecord Endian.little [7] ++ encodeRecord Endian.little [0] ++
        encodeRecord Endian.little [9]] []
      = ([1], SessionEnd.decodeErrorClosed) :=
  decode_failure_closes_connection Endian.little decodeC3 0 [7] [0] [9] 1
    (by norm_num) (by norm_num) rfl rfl

/-- C2 (code evaluation at the failing input): tracker and crossing
detector are constructed once in `__init__` and shared by every
connection, so state leaks across a disconnect/reconnect of the same
device.  A device whose session 1 showed object id 0 on the IN side
disconnects; on the first frame of the reconnected session 2 the object
map still carries id 0 and its stale previous side, so a crossing event
fires immediately — a fresh-per-session pipeline (the claim) emits no
event on that same session, and the reconnected session's id space is not
fresh (object id 0 and `nextObjectID` 1 persist). -/
theorem reconnection_state_leaks_across_sessions :
    (process_frames (process_frames serverInit sessIn).1 sessOut).2 =
      [[⟨0, "item", Side.OUT, 0, (50, 110)⟩]]
    ∧ (process_frames serverInit sessOut).2 = [[]]
    ∧ (process_frames (process_frames serverInit sessIn).1 sessOut).1.tracker
        = ⟨1, [(0, (50, 110), "item")], [(0, 0)], 30⟩ := by
  refine ⟨rfl, rfl, rfl⟩

/-- C6: on the first live frame the boundary is rescaled per axis and each
coordinate clamped into `[0, frame_width-1]` / `[0, frame_height-1]`;
afterwards `boundary_scaled` is set and any further frame (of any
resolution) leaves the state untouched; and the calibration boundary
(100,100)-(500,100) at 640x480 applied to a 1280x960 frame yields
exactly (200,200)-(1000,200). -/
theorem boundary_rescaled_once_and_clamped
    (bx1 by1 bx2 by2 fw fh : Int) (s : ServerState)
    (hs : s.boundary_original = some (bx1, by1, bx2, by2))
    (hns : s.boundary_scaled = false) (hfw : 1 ≤ fw) (hfh : 1 ≤ fh) :
    ((autoScaleBoundary s fw fh).boundary_scaled = true)
    ∧ (∀ p q, (autoScaleBoundary s fw fh).direction_detector.boundary
          = some (p, q) →
        0 ≤ p.1 ∧ p.1 ≤ fw - 1 ∧ 0 ≤ p.2 ∧ p.2 ≤ fh - 1 ∧
        0 ≤ q.1 ∧ q.1 ≤ fw - 1 ∧ 0 ≤ q.2 ∧ q.2 ≤ fh - 1)
    ∧ (∀ fw2 fh2, autoScaleBoundary (autoScaleBoundary s fw fh) fw2 fh2 =
        autoScaleBoundary s fw fh)
    ∧ (autoScaleBoundary calibSessC6 1280 960).direction_detector.boundary
        = some ((200, 200), (1000, 200)) := by
  have hclamp : ∀ (v hi : Int), 1 ≤ hi → 0 ≤ max 0 (min v (hi - 1))
      ∧ max 0 (min v (hi - 1)) ≤ hi - 1 := by
    intro v hi h1
    constructor
    · exact le_max_left 0 _
    · apply max_le
      · omega
      · exact min_le_right v (hi - 1)
  refine ⟨?_, ?_, ?_, rfl⟩
  · simp [autoScaleBoundary, hs, hns]
  · intro p q hpq
    simp [autoScaleBoundary, hs, hns] at hpq
    obtain ⟨hp, hq⟩ := hpq
    rw [← hp, ← hq]
    refine ⟨(hclamp _ fw hfw).1, (hclamp _ fw hfw).2, (hclamp _ fh hfh).1,
      (hclamp _ fh hfh).2, (hclamp _ fw hfw).1, (hclamp _ fw hfw).2,
      (hclamp _ fh hfh).1, (hclamp _ fh hfh).2⟩
  · intro fw2 fh2
    simp [autoScaleBoundary, hs, hns]

/-- C6 witness: the scenario of the spec's concrete example — boundary
(100,100)-(500,100) at calibration resolution 640x480, live frame
1280x960. -/
theorem boundary_rescaled_once_and_clamped_witness :
    (autoScaleBoundary calibSessC6 1280 960).boundary_scaled = true
    ∧ (autoScaleBoundary calibSessC6 1280 960).direction_detector.boundary
        = some ((200, 200), (1000, 200)) := by
  have h := boundary_rescaled_once_and_clamped 100 100 500 100 1280 960
    calibSessC6 rfl rfl (by decide) (by decide)
  exact ⟨h.1, h.2.2.2⟩

/-- C9: over any number of frames with zero detections, a fresh-per-session
tracker returns an empty object set on every frame, and `update` of the
crossing detector on an empty object set returns no events, whatever its
state. -/
theorem zero_detections_yield_no_objects_and_no_events :
    (∀ (n m : Nat),
      (CentroidTracker.update (runEmptyFrames n (emptyTracker m)) []).1 = [])
    ∧ ∀ (d : DetState) (now : Nat),
        (DirectionDetector.update d [] now).1 = [] := by
  have hstep : ∀ (m : Nat),
      CentroidTracker.update (emptyTracker m) [] = ([], emptyTracker m) :=
    fun m => rfl
  have hfix : ∀ (n m : Nat), runEmptyFrames n (emptyTracker m) = emptyTracker m := by
    intro n
    induction n with
    | zero => intro m; rfl
    | succ k ih =>
      intro m
      rw [runEmptyFrames, hstep m]
      exact ih m
  refine ⟨fun n m => by rw [hfix n m, hstep m], fun d now => ?_⟩
  cases hd : d.boundary
  · simp [DirectionDetector.update, hd]
  · simp [DirectionDetector.update, hd, updateLoop]

/-- C10: after any `update` with a boundary configured, starting from a
state whose crossed-marks are covered by its prev-position keys (true of
every reachable state), the set of ids with a stored previous position is
exactly the set of ids passed in this call, and every crossed-marked id
still has a stored previous position; an id omitted from this call has
lost both records. -/
theorem update_prev_keys_match_current_ids (s : DetState)
    (b : (Int × Int) × (Int × Int)) (objects : List (Nat × ObjData)) (now : Nat)
    (hb : s.boundary = some b)
    (hinv : ∀ i, s.crossed_objects i = true →
      (s.prev_positions i).isSome = true) :
    (∀ i, ((DirectionDetector.update s objects now).2.prev_positions i).isSome = true
        ↔ i ∈ objects.map Prod.fst)
    ∧ ∀ i, (DirectionDetector.update s objects now).2.crossed_objects i = true →
        ((DirectionDetector.update s objects now).2.prev_positions i).isSome = true := by
  have h1 : ∀ i,
      ((DirectionDetector.update s objects now).2.prev_positions i).isSome = true
        ↔ i ∈ objects.map Prod.fst := by
    intro i
    simp only [DirectionDetector.update, hb]
    by_cases hm : i ∈ objects.map Prod.fst
    · have hc : (objects.map Prod.fst).contains i = true := by simpa using hm
      have hsome : ((updateLoop (some b) now objects s.prev_positions
          s.crossed_objects []).1 i).isSome = true :=
        (updateLoop_prev_isSome (some b) now objects s.prev_positions
          s.crossed_objects [] i).mpr (Or.inr hm)
      simp [hc, hsome, hm]
    · have hc : (objects.map Prod.fst).contains i = false := by simpa using hm
      by_cases hsome : ((updateLoop (some b) now objects s.prev_positions
          s.crossed_objects []).1 i).isSome = true
      · simp [hc, hsome, hm]
      · simp only [Bool.not_eq_true] at hsome
        simp [hc, hsome, hm]
  refine ⟨h1, fun i hcr => ?_⟩
  rw [h1 i]
  simp only [DirectionDetector.update, hb] at hcr
  by_cases hd : (((updateLoop (some b) now objects s.prev_positions
      s.crossed_objects []).1 i).isSome
        && !((objects.map Prod.fst).contains i)) = true
  · rw [if_pos hd] at hcr
    exact absurd hcr Bool.false_ne_true
  · simp only [Bool.not_eq_true] at hd
    simp only [hd, Bool.false_eq_true, if_false] at hcr
    rcases updateLoop_crossed_mem (some b) now objects s.prev_positions
        s.crossed_objects [] i hcr with hc | hm
    · by_cases hm2 : i ∈ objects.map Prod.fst
      · exact hm2
      · exfalso
        have hsome : ((updateLoop (some b) now objects s.prev_positions
            s.crossed_objects []).1 i).isSome = true :=
          (updateLoop_prev_isSome (some b) now objects s.prev_positions
            s.crossed_objects [] i).mpr (Or.inl (hinv i hc))
        have hcont : (objects.map Prod.fst).contains i = false := by
          simpa using hm2
        rw [hsome, hcont] at hd
        simp at hd
    · exact hm

/-- C10 witness: from a fresh state with boundary (0,0)-(100,0), after one
update carrying only object id 3, id 3 has a stored previous position and
id 5 has none. -/
theorem update_prev_keys_match_current_ids_witness :
    (((DirectionDetector.update ⟨some ((0, 0), (100, 0)), fun _ => none,
        fun _ => false⟩ [(3, ⟨(50, -10), "can"⟩)] 0).2.prev_positions 3).isSome
      = true)
    ∧ (((DirectionDetector.update ⟨some ((0, 0), (100, 0)), fun _ => none,
        fun _ => false⟩ [(3, ⟨(50, -10), "can"⟩)] 0).2.prev_positions 5).isSome
      = false) := by
  have h := update_prev_keys_match_current_ids
    ⟨some ((0, 0), (100, 0)), fun _ => none, fun _ => false⟩
    ((0, 0), (100, 0)) [(3, ⟨(50, -10), "can"⟩)] 0 rfl
    (fun i hi => by simp at hi)
  constructor
  · exact (h.1 3).mpr (by simp)
  · have h5 := h.1 5
    simp at h5
    simp [h5]

end IntelliCab
